import Mathlib

/-!
Shallow embedding of rendezvous-hasher.h, a header-only C99 implementation
of rendezvous (highest-random-weight) hashing.

The registry (RendezvousHasher) holds a singly linked list of node ids
(unsigned int); we model the list as a List Nat whose head is the most
recently added node, with all unsigned-int arithmetic taken modulo 2^32.
A possibly-NULL registry pointer is modelled as an Option RendezvousHasher;
each operation returns the C status code together with the registry state
after the call. The possibly-NULL output pointer of rendezvous_get_node_for
is modelled by a Bool (whether the pointer was provided), and the value
written through it is returned as an Option Nat (none when nothing was
written).
-/

/-- Modulus of the C `unsigned int` type (32 bits on the reference platform). -/
def uintMod : Nat := 4294967296

/-- Status code RENDEZVOUS_HASHER_OK. -/
def RENDEZVOUS_HASHER_OK : Int := 0

/-- Status code RENDEZVOUS_HASHER_ERROR_IS_NULL. -/
def RENDEZVOUS_HASHER_ERROR_IS_NULL : Int := -1

/-- Status code RENDEZVOUS_HASHER_ERROR_ARGUMENT_NULL. -/
def RENDEZVOUS_HASHER_ERROR_ARGUMENT_NULL : Int := -2

/-- The registry: the linked list RendezvousHasherNodeList of node ids,
head first (rendezvous_add_node prepends at the head). -/
structure RendezvousHasher where
  nodes : List Nat
deriving DecidableEq

/-- The default hash rendezvous_hasher_hash_uint32: a finalizer-style
integer avalanche mix on unsigned int, every step taken modulo 2^32. -/
def rendezvous_hasher_hash_uint32 (a0 : Nat) : Nat :=
  let a := a0 % uintMod
  let a := (a ^^^ 61) ^^^ (a >>> 16)
  let a := (a + (a <<< 3) % uintMod) % uintMod
  let a := a ^^^ (a >>> 4)
  let a := (a * 0x27d4eb2d) % uintMod
  let a := a ^^^ (a >>> 15)
  a

/-- rendezvous_init: on a NULL handle return IS_NULL; otherwise set
rh->nodes = NULL and return OK. -/
def rendezvous_init (rh : Option RendezvousHasher) : Int × Option RendezvousHasher :=
  match rh with
  | none => (RENDEZVOUS_HASHER_ERROR_IS_NULL, none)
  | some _ => (RENDEZVOUS_HASHER_OK, some ⟨[]⟩)

/-- rendezvous_free: on a NULL handle return IS_NULL; otherwise free every
list cell, set rh->nodes = NULL and return OK. -/
def rendezvous_free (rh : Option RendezvousHasher) : Int × Option RendezvousHasher :=
  match rh with
  | none => (RENDEZVOUS_HASHER_ERROR_IS_NULL, none)
  | some _ => (RENDEZVOUS_HASHER_OK, some ⟨[]⟩)

/-- rendezvous_add_node: on a NULL handle return IS_NULL; otherwise prepend
a cell carrying id (an unsigned int, hence reduced modulo 2^32) and return OK. -/
def rendezvous_add_node (rh : Option RendezvousHasher) (id : Nat) :
    Int × Option RendezvousHasher :=
  match rh with
  | none => (RENDEZVOUS_HASHER_ERROR_IS_NULL, none)
  | some r => (RENDEZVOUS_HASHER_OK, some ⟨id % uintMod :: r.nodes⟩)

/-- The unlink step of rendezvous_remove_node when the first match sits
strictly after the head: prev->next = it->next removes exactly the first
cell of the tail whose id matches. -/
def removeFirstTail (id : Nat) : List Nat → List Nat
  | [] => []
  | x :: xs => if x = id then xs else x :: removeFirstTail id xs

/-- rendezvous_remove_node: on a NULL handle return IS_NULL; on an empty
list return OK. Otherwise scan for the first cell whose id matches. If that
cell is the head (prev == NULL) the code frees rh->nodes and sets
rh->nodes = NULL, discarding the whole list; otherwise it unlinks just the
matching cell. Either way it returns OK. -/
def rendezvous_remove_node (rh : Option RendezvousHasher) (id : Nat) :
    Int × Option RendezvousHasher :=
  match rh with
  | none => (RENDEZVOUS_HASHER_ERROR_IS_NULL, none)
  | some r =>
    match r.nodes with
    | [] => (RENDEZVOUS_HASHER_OK, some r)
    | head :: tail =>
      if head = id % uintMod then
        (RENDEZVOUS_HASHER_OK, some ⟨[]⟩)
      else
        (RENDEZVOUS_HASHER_OK, some ⟨head :: removeFirstTail (id % uintMod) tail⟩)

/-- The scan loop of rendezvous_get_node_for: walk the list keeping the
running max_hash (initially 0) and chosen_node_id (initially {0}); a node
replaces the current choice only when its hash of (node_id + item_id) is
strictly greater than max_hash. -/
def rendezvous_get_node_for_loop (item_id : Nat) :
    List Nat → Nat → Nat → Nat
  | [], _, chosen_node_id => chosen_node_id
  | node_id :: rest, max_hash, chosen_node_id =>
    let id_sum := (node_id + item_id) % uintMod
    let id_sum_hash := rendezvous_hasher_hash_uint32 id_sum
    if id_sum_hash > max_hash then
      rendezvous_get_node_for_loop item_id rest id_sum_hash node_id
    else
      rendezvous_get_node_for_loop item_id rest max_hash chosen_node_id

/-- rendezvous_get_node_for: on a NULL handle return IS_NULL; on a NULL
output pointer return ARGUMENT_NULL; otherwise run the scan loop, store the
chosen node id through the output pointer and return OK. The registry is
only read, never written. -/
def rendezvous_get_node_for (rh : Option RendezvousHasher) (item_id : Nat)
    (node_id_provided : Bool) : Int × Option Nat × Option RendezvousHasher :=
  match rh with
  | none => (RENDEZVOUS_HASHER_ERROR_IS_NULL, none, none)
  | some r =>
    if node_id_provided then
      (RENDEZVOUS_HASHER_OK,
       some (rendezvous_get_node_for_loop (item_id % uintMod) r.nodes 0 0),
       some r)
    else
      (RENDEZVOUS_HASHER_ERROR_ARGUMENT_NULL, none, some r)

/-- A sequence of read-only rendezvous_get_node_for calls, one per key in
the list, each call starting from the registry state the previous call left
behind; returns the final state and the value stored by each call. -/
def read_only_session : RendezvousHasher → List Nat → RendezvousHasher × List (Option Nat)
  | rh, [] => (rh, [])
  | rh, k :: ks =>
    match rendezvous_get_node_for (some rh) k true with
    | (_, out, some rh2) =>
      let rest := read_only_session rh2 ks
      (rest.1, out :: rest.2)
    | (_, out, none) => (rh, [out])

/-- The scan loop returns either the initial chosen_node_id or a node of the
list whose score strictly exceeds the initial max_hash. -/
theorem rendezvous_get_node_for_loop_choice (item : Nat) (l : List Nat) :
    ∀ mh c : Nat,
      rendezvous_get_node_for_loop item l mh c = c
      ∨ (rendezvous_get_node_for_loop item l mh c ∈ l
         ∧ mh < rendezvous_hasher_hash_uint32
             ((rendezvous_get_node_for_loop item l mh c + item) % uintMod)) := by
  induction l with
  | nil => intro mh c; left; rfl
  | cons n rest ih =>
    intro mh c
    simp only [rendezvous_get_node_for_loop]
    by_cases h : rendezvous_hasher_hash_uint32 ((n + item) % uintMod) > mh
    · simp only [if_pos h]
      rcases ih (rendezvous_hasher_hash_uint32 ((n + item) % uintMod)) n with heq | ⟨hmem, hlt⟩
      · right
        rw [heq]
        exact ⟨List.mem_cons_self n rest, h⟩
      · right
        exact ⟨List.mem_cons_of_mem n hmem, lt_trans h hlt⟩
    · simp only [if_neg h]
      rcases ih mh c with heq | ⟨hmem, hlt⟩
      · left; exact heq
      · right; exact ⟨List.mem_cons_of_mem n hmem, hlt⟩

/-- When every node of the list scores 0 for the item, the scan loop never
updates and returns the initial sentinel 0. -/
theorem rendezvous_get_node_for_loop_all_zero (item : Nat) (l : List Nat)
    (h : ∀ n ∈ l, rendezvous_hasher_hash_uint32 ((n + item) % uintMod) = 0) :
    rendezvous_get_node_for_loop item l 0 0 = 0 := by
  induction l with
  | nil => rfl
  | cons n rest ih =>
    simp only [rendezvous_get_node_for_loop]
    rw [h n (List.mem_cons_self n rest)]
    simp only [gt_iff_lt, lt_irrefl, if_false]
    exact ih fun m hm => h m (List.mem_cons_of_mem n hm)

/-- Removing an id that matches no cell of the tail leaves the tail
unchanged. -/
theorem removeFirstTail_not_mem (id : Nat) (l : List Nat) (h : id ∉ l) :
    removeFirstTail id l = l := by
  induction l with
  | nil => rfl
  | cons x xs ih =>
    simp only [removeFirstTail]
    rw [if_neg fun hx => h (by rw [← hx]; exact List.mem_cons_self x xs)]
    rw [ih fun hm => h (List.mem_cons_of_mem x hm)]

/-- Unfolding a read-only session one call at a time: the call on the head
key stores the loop result for the current registry and leaves the registry
state unchanged for the rest of the session. -/
theorem read_only_session_cons (rh : RendezvousHasher) (k : Nat) (ks : List Nat) :
    read_only_session rh (k :: ks)
      = ((read_only_session rh ks).1,
         some (rendezvous_get_node_for_loop (k % uintMod) rh.nodes 0 0)
           :: (read_only_session rh ks).2) := rfl

/-- A read-only session leaves the registry untouched and stores, for each
key, exactly the scan-loop result on the original registry contents. -/
theorem read_only_session_spec (rh : RendezvousHasher) (ks : List Nat) :
    read_only_session rh ks
      = (rh, ks.map fun k =>
          some (rendezvous_get_node_for_loop (k % uintMod) rh.nodes 0 0)) := by
  induction ks with
  | nil => rfl
  | cons k ks ih => rw [read_only_session_cons, ih, List.map_cons]

/-- C6: on a registry with zero nodes, rendezvous_get_node_for returns
RENDEZVOUS_HASHER_OK and stores the zero-value NodeId 0 into the output
parameter, leaving the registry unchanged. -/
theorem claim_C6_empty_registry (item_id : Nat) :
    rendezvous_get_node_for (some ⟨[]⟩) item_id true
      = (RENDEZVOUS_HASHER_OK, some 0, some ⟨[]⟩) := rfl

/-- C7: rendezvous_free on any registry succeeds and leaves the registry
empty (nodes = NULL), and calling rendezvous_free again on the result also
succeeds and leaves it empty. -/
theorem claim_C7_idempotent_teardown (r : RendezvousHasher) :
    rendezvous_free (some r) = (RENDEZVOUS_HASHER_OK, some ⟨[]⟩)
    ∧ rendezvous_free (rendezvous_free (some r)).2
        = (RENDEZVOUS_HASHER_OK, some ⟨[]⟩) :=
  ⟨rfl, rfl⟩

/-- C8: rendezvous_remove_node with an id matching no entry of the registry
returns RENDEZVOUS_HASHER_OK and leaves the registry contents unchanged. -/
theorem claim_C8_remove_absent_noop (r : RendezvousHasher) (id : Nat)
    (h : id % uintMod ∉ r.nodes) :
    rendezvous_remove_node (some r) id = (RENDEZVOUS_HASHER_OK, some r) := by
  obtain ⟨nodes⟩ := r
  cases nodes with
  | nil => rfl
  | cons head tail =>
    simp only [rendezvous_remove_node]
    rw [if_neg fun he => h (by rw [← he]; exact List.mem_cons_self head tail)]
    rw [removeFirstTail_not_mem _ _ fun hm => h (List.mem_cons_of_mem head hm)]

/-- C8 witness: removing id 3 from the registry holding nodes 1 and 2 is a
successful no-op. -/
theorem claim_C8_remove_absent_noop_witness :
    rendezvous_remove_node (some ⟨[1, 2]⟩) 3
      = (RENDEZVOUS_HASHER_OK, some ⟨[1, 2]⟩) :=
  claim_C8_remove_absent_noop ⟨[1, 2]⟩ 3 (by decide)

/-- C9: every operation invoked on a NULL registry handle returns
RENDEZVOUS_HASHER_ERROR_IS_NULL with no state to modify, and
rendezvous_get_node_for with a NULL output parameter returns
RENDEZVOUS_HASHER_ERROR_ARGUMENT_NULL leaving the registry unchanged. -/
theorem claim_C9_fail_fast (id item_id : Nat) (b : Bool) (r : RendezvousHasher) :
    rendezvous_init none = (RENDEZVOUS_HASHER_ERROR_IS_NULL, none)
    ∧ rendezvous_free none = (RENDEZVOUS_HASHER_ERROR_IS_NULL, none)
    ∧ rendezvous_add_node none id = (RENDEZVOUS_HASHER_ERROR_IS_NULL, none)
    ∧ rendezvous_remove_node none id = (RENDEZVOUS_HASHER_ERROR_IS_NULL, none)
    ∧ rendezvous_get_node_for none item_id b
        = (RENDEZVOUS_HASHER_ERROR_IS_NULL, none, none)
    ∧ rendezvous_get_node_for (some r) item_id false
        = (RENDEZVOUS_HASHER_ERROR_ARGUMENT_NULL, none, some r) :=
  ⟨rfl, rfl, rfl, rfl, rfl, rfl⟩

/-- C4: determinism of rendezvous_get_node_for. In any session of read-only
calls, two calls made with the same item key store the same node id,
independent of their position in the session and of the other (read-only)
calls interleaved between them. -/
theorem claim_C4_determinism (rh : RendezvousHasher) (ks : List Nat)
    (k i j : Nat) (hi : ks[i]? = some k) (hj : ks[j]? = some k) :
    (read_only_session rh ks).2[i]? = (read_only_session rh ks).2[j]? := by
  rw [read_only_session_spec]
  simp only [List.getElem?_map, hi, hj]

/-- C4 witness: in a session querying keys 5, 7, 5 on the registry holding
node 3, the first and third calls store the same node id. -/
theorem claim_C4_determinism_witness :
    (read_only_session ⟨[3]⟩ [5, 7, 5]).2[0]?
      = (read_only_session ⟨[3]⟩ [5, 7, 5]).2[2]? :=
  claim_C4_determinism ⟨[3]⟩ [5, 7, 5] 5 0 2 rfl rfl

/-- C2: divergence of rendezvous_remove_node at the failing input. On the
registry [7777, 6969], removing id 7777 matches the head cell, and the
prev == NULL branch sets rh->nodes = NULL, so the non-matching entry 6969
is discarded as well instead of remaining in the registry. -/
theorem claim_C2_remove_head_discards_tail :
    rendezvous_remove_node (some ⟨[7777, 6969]⟩) 7777
      = (RENDEZVOUS_HASHER_OK, some ⟨[]⟩)
    ∧ (6969 : Nat) ∈ [7777, 6969]
    ∧ (6969 : Nat) ∉ ([] : List Nat) := by decide

/-- C1: divergence of minimal disruption at the failing input. On the
registry [7777, 6969] the key 1 selects node 6969; removing node 7777 (the
head) empties the whole registry through the buggy prev == NULL branch, so
the key 1, whose selected node 6969 was not the removed node, is reassigned
to the sentinel 0. -/
theorem claim_C1_remove_head_disrupts_unrelated_key :
    (rendezvous_get_node_for (some ⟨[7777, 6969]⟩) 1 true).2.1 = some 6969
    ∧ rendezvous_remove_node (some ⟨[7777, 6969]⟩) 7777
        = (RENDEZVOUS_HASHER_OK, some ⟨[]⟩)
    ∧ (rendezvous_get_node_for (some ⟨[]⟩) 1 true).2.1 = some 0
    ∧ (6969 : Nat) ≠ 7777
    ∧ (0 : Nat) ≠ 6969 := by decide

/-- C3: concrete selection scenario on the registry holding 6969, 420, 7777
(list order [7777, 420, 6969] after the three adds) with the default hash:
key 123 selects 7777, key 456 selects 420 and key 23748274 selects 6969,
each being the node of strictly maximum hash of (node + key) among the
three. -/
theorem claim_C3_concrete_selection :
    ((rendezvous_get_node_for (some ⟨[7777, 420, 6969]⟩) 123 true).2.1 = some 7777
     ∧ rendezvous_hasher_hash_uint32 ((420 + 123) % uintMod)
         < rendezvous_hasher_hash_uint32 ((7777 + 123) % uintMod)
     ∧ rendezvous_hasher_hash_uint32 ((6969 + 123) % uintMod)
         < rendezvous_hasher_hash_uint32 ((7777 + 123) % uintMod))
    ∧ ((rendezvous_get_node_for (some ⟨[7777, 420, 6969]⟩) 456 true).2.1 = some 420
       ∧ rendezvous_hasher_hash_uint32 ((7777 + 456) % uintMod)
           < rendezvous_hasher_hash_uint32 ((420 + 456) % uintMod)
       ∧ rendezvous_hasher_hash_uint32 ((6969 + 456) % uintMod)
           < rendezvous_hasher_hash_uint32 ((420 + 456) % uintMod))
    ∧ ((rendezvous_get_node_for (some ⟨[7777, 420, 6969]⟩) 23748274 true).2.1 = some 6969
       ∧ rendezvous_hasher_hash_uint32 ((7777 + 23748274) % uintMod)
           < rendezvous_hasher_hash_uint32 ((6969 + 23748274) % uintMod)
       ∧ rendezvous_hasher_hash_uint32 ((420 + 23748274) % uintMod)
           < rendezvous_hasher_hash_uint32 ((6969 + 23748274) % uintMod)) := by
  decide

/-- C5: concrete removal scenario. Starting from an initialized registry,
adding 6969, then 420, then 7777 and removing 420 leaves the registry
holding exactly the nodes 7777 and 6969, and rendezvous_get_node_for on the
resulting registry never stores 420, whatever the item key. -/
theorem claim_C5_removal_scenario :
    rendezvous_remove_node
        (rendezvous_add_node
          (rendezvous_add_node
            (rendezvous_add_node (rendezvous_init (some ⟨[]⟩)).2 6969).2
            420).2
          7777).2
        420
      = (RENDEZVOUS_HASHER_OK, some ⟨[7777, 6969]⟩)
    ∧ ∀ item_id : Nat,
        (rendezvous_get_node_for (some ⟨[7777, 6969]⟩) item_id true).2.1
          ≠ some 420 := by
  constructor
  · decide
  · intro item_id heq
    have hv : rendezvous_get_node_for_loop (item_id % uintMod) [7777, 6969] 0 0
        = 420 := Option.some_inj.mp heq
    rcases rendezvous_get_node_for_loop_choice (item_id % uintMod) [7777, 6969] 0 0
      with h0 | ⟨hmem, _⟩
    · rw [hv] at h0
      exact absurd h0 (by decide)
    · rw [hv] at hmem
      exact absurd hmem (by decide)

/-- C10 counterexample: the registered node 0 has score 0 for item key 61
(the default hash maps 61 to 0), yet the value stored by
rendezvous_get_node_for equals that registered node, so a zero-score node
with id 0 is indistinguishable from the never-selected sentinel. -/
theorem claim_C10_zero_id_counterexample :
    (0 : Nat) ∈ [0]
    ∧ rendezvous_hasher_hash_uint32 ((0 + 61) % uintMod) = 0
    ∧ (rendezvous_get_node_for (some ⟨[0]⟩) 61 true).2.1 = some 0 := by decide

/-- C10 amended: if every node of the registry scores 0 for the item key,
rendezvous_get_node_for stores the zero-value NodeId 0; and a node with
NONZERO id whose score is 0 is never the stored value. (A registered node
whose id is 0 itself is indistinguishable from the sentinel 0.) -/
theorem claim_C10_zero_score_never_selected (l : List Nat) (item_id : Nat) :
    ((∀ n ∈ l, rendezvous_hasher_hash_uint32 ((n + item_id) % uintMod) = 0) →
       (rendezvous_get_node_for (some ⟨l⟩) item_id true).2.1 = some 0)
    ∧ (∀ n ∈ l, n ≠ 0 →
         rendezvous_hasher_hash_uint32 ((n + item_id) % uintMod) = 0 →
         (rendezvous_get_node_for (some ⟨l⟩) item_id true).2.1 ≠ some n) := by
  constructor
  · intro hz
    have hloop : rendezvous_get_node_for_loop (item_id % uintMod) l 0 0 = 0 := by
      apply rendezvous_get_node_for_loop_all_zero
      intro n hn
      rw [Nat.add_mod_mod]
      exact hz n hn
    show some (rendezvous_get_node_for_loop (item_id % uintMod) l 0 0) = some 0
    rw [hloop]
  · intro n hn hn0 hscore heq
    have hv : rendezvous_get_node_for_loop (item_id % uintMod) l 0 0 = n :=
      Option.some_inj.mp heq
    rcases rendezvous_get_node_for_loop_choice (item_id % uintMod) l 0 0
      with h0 | ⟨_, hlt⟩
    · rw [hv] at h0
      exact hn0 h0
    · rw [hv, Nat.add_mod_mod, hscore] at hlt
      exact lt_irrefl 0 hlt

/-- C10 amended witness: on the registry holding only node 61 with item key
0 every node scores 0 (the default hash maps 61 to 0), so the stored value
is 0 and is not the nonzero registered node 61. -/
theorem claim_C10_zero_score_never_selected_witness :
    (rendezvous_get_node_for (some ⟨[61]⟩) 0 true).2.1 = some 0
    ∧ (rendezvous_get_node_for (some ⟨[61]⟩) 0 true).2.1 ≠ some 61 :=
  ⟨(claim_C10_zero_score_never_selected [61] 0).1 (by decide),
   (claim_C10_zero_score_never_selected [61] 0).2 61 (by decide) (by decide)
     (by decide)⟩

/-- C5 witness: on the registry left by the removal (nodes 7777 and 6969),
the call with item key 5 does not store 420. -/
theorem claim_C5_removal_scenario_witness :
    (rendezvous_get_node_for (some ⟨[7777, 6969]⟩) 5 true).2.1 ≠ some 420 :=
  claim_C5_removal_scenario.2 5
